import Mathlib

/-!
# Verification of the OPC-UA diagnostic probe worker

Shallow embedding of the probe pipeline implemented in `worker.js`:
socket-table parsing (`getListeningPorts`), address/port splitting
(`parseAddressPort`), endpoint normalization (`normalizeEndpoint`),
the port-diff computation of the start handler, the connection watcher
(`monitorConnectionAttempts`) and the stage pipeline of the
`process.on('message')` start handler.

Strings are processed at the character-list level so that every
definition evaluates by kernel reduction.  JS string primitives are
modelled as follows:

* `stdout.split(/\r?\n/)`            → `splitLinesChars`
* `s.trim()`                         → `trimChars`
* `line.trim().split(/\s+/)`         → `wsTokens` (the JS edge case that a
  whitespace-only line yields `[""]` instead of `[]` is immaterial: both
  lists fail the `length ≥ 5` column check that guards every use)
* `s.toLowerCase()` (ASCII data)     → `lowerChars`
* `a.includes(b)` / regex `.test`    → `containsSeq`
* `text.lastIndexOf(':')` splitting  → `splitLastColon`
-/

namespace OpcuaProbe

/-- JS truthiness of an optional string argument (`null`/`undefined`/`""` are falsy). -/
def jsTruthyStr : Option String → Bool
  | none => false
  | some s => s != ""

/-- JS truthiness of an optional numeric argument (`null`/`undefined`/`0` are falsy). -/
def jsTruthyNat : Option Nat → Bool
  | none => false
  | some n => n != 0

/-- Split on `\r?\n`, i.e. at every `\n`, also consuming an immediately preceding `\r`. -/
def splitLinesChars : List Char → List (List Char)
  | [] => [[]]
  | '\r' :: '\n' :: rest => [] :: splitLinesChars rest
  | '\n' :: rest => [] :: splitLinesChars rest
  | c :: rest =>
    match splitLinesChars rest with
    | [] => [[c]]
    | l :: ls => (c :: l) :: ls

/-- `s.trim()`: drop leading and trailing whitespace characters. -/
def trimChars (l : List Char) : List Char :=
  ((l.dropWhile Char.isWhitespace).reverse.dropWhile Char.isWhitespace).reverse

/-- Does the line contain a non-whitespace character?  This is JS truthiness of
`line.trim()`, used by the `.filter(l => l.trim())` body filter. -/
def hasContent (l : List Char) : Bool :=
  l.any (fun c => !c.isWhitespace)

/-- `line.trim().split(/\s+/)`: the maximal whitespace-free tokens of the line,
accumulated left to right (`acc` holds the reversed current token). -/
def wsTokensAux : List Char → List Char → List (List Char)
  | acc, [] => if acc.isEmpty then [] else [acc.reverse]
  | acc, c :: rest =>
    if c.isWhitespace then
      if acc.isEmpty then wsTokensAux [] rest
      else acc.reverse :: wsTokensAux [] rest
    else wsTokensAux (c :: acc) rest

def wsTokens (l : List Char) : List (List Char) :=
  wsTokensAux [] l

/-- ASCII-wise `s.toLowerCase()`. -/
def lowerChars (l : List Char) : List Char :=
  l.map Char.toLower

/-- Is `p` a prefix of `l` (Boolean, character-wise)? -/
def leadsWith : List Char → List Char → Bool
  | [], _ => true
  | _ :: _, [] => false
  | a :: as, b :: bs => a == b && leadsWith as bs

/-- `hay.includes(needle)`: does `needle` occur contiguously inside `hay`? -/
def containsSeq (needle : List Char) : List Char → Bool
  | [] => needle.isEmpty
  | c :: rest => leadsWith needle (c :: rest) || containsSeq needle rest

/-- Split `text` at its *last* colon: `some (before, after)`, or `none` when no
colon occurs.  Mirrors `text.lastIndexOf(':')` followed by the two
`substring` calls in `parseAddressPort`. -/
def splitLastColon : List Char → Option (List Char × List Char)
  | [] => none
  | c :: cs =>
    match splitLastColon cs with
    | some (a, b) => some (c :: a, b)
    | none => if c == ':' then some ([], cs) else none

/-- `parseAddressPort(text)` from `worker.js`: split at the last colon; with no
colon the whole token is the address and the port is the empty string. -/
def parseAddressPort (text : List Char) : List Char × List Char :=
  match splitLastColon text with
  | none => (text, [])
  | some (a, p) => (a, p)

/-! ## Socket-table snapshot (`getListeningPorts` in `worker.js`) -/

/-- `stdout.split(/\r?\n/).slice(4).filter(l => l.trim())`: the body lines of a
netstat dump, after the four header lines, with blank lines removed. -/
def netstatBody (stdout : List Char) : List (List Char) :=
  ((splitLinesChars stdout).drop 4).filter hasContent

/-- One observed listening socket, as pushed by `getListeningPorts`.  Every
field is a total `String`: the code always assigns string values (an
unparseable port becomes `''`). -/
structure SocketRec where
  proto : String
  localAddress : String
  localPort : String
  pid : String
deriving DecidableEq, Repr

/-- The listening-state test of `getListeningPorts`:
`/LISTENING/i.test(state) || state === 'LISTEN'` — a case-insensitive
*containment* test for the full spelling, plus an exact (case-sensitive)
equality test for the abbreviated spelling. -/
def isListeningState (state : List Char) : Bool :=
  containsSeq "listening".data (lowerChars state) || state == "LISTEN".data

/-- The `SocketRec` pushed for a qualifying row: columns 0/1/4 are
protocol, `address:port` token and pid; the token is split by
`parseAddressPort`. -/
def listenRecOfLine (line : List Char) : SocketRec :=
  let parts := wsTokens line
  let ap := parseAddressPort (parts.getD 1 [])
  ⟨⟨parts.getD 0 []⟩, ⟨ap.1⟩, ⟨ap.2⟩, ⟨parts.getD 4 []⟩⟩

/-- One iteration of the `for (const line of lines)` loop in
`getListeningPorts`: require at least 5 whitespace-separated columns, keep the
row when its state column (column 3) passes `isListeningState`. -/
def parseListenLine (line : List Char) : Option SocketRec :=
  let parts := wsTokens line
  if parts.length ≥ 5 then
    if isListeningState (parts.getD 3 []) then some (listenRecOfLine line)
    else none
  else none

/-- The record-collection loop of `getListeningPorts` over the body lines. -/
def listenersOfBody (lines : List (List Char)) : List SocketRec :=
  lines.filterMap parseListenLine

/-- `getListeningPorts`, given the raw `netstat -ano` stdout. -/
def getListeningPorts (stdout : String) : List SocketRec :=
  listenersOfBody (netstatBody stdout.data)

/-! ## Connection watcher rows (`monitorConnectionAttempts` in `worker.js`) -/

/-- One observed connection row matching the target, as pushed by
`monitorConnectionAttempts`.  The wall-clock `timestamp` field is not
modelled; ordering and duplication of observations are captured by list
order. -/
structure ConnAttempt where
  proto : String
  localAddress : String
  localPort : String
  remoteAddress : String
  remotePort : String
  state : String
  pid : String
deriving DecidableEq, Repr

/-- One iteration of the row loop inside a watcher tick: require ≥ 5 columns
and record the row when `serverIp && remote.includes(serverIp)` — note the
*substring* containment test against the raw `remote` token. -/
def parseConnLine (serverIp : Option String) (line : List Char) : Option ConnAttempt :=
  let parts := wsTokens line
  if parts.length ≥ 5 then
    let proto := parts.getD 0 []
    let localTok := parts.getD 1 []
    let remoteTok := parts.getD 2 []
    let state := parts.getD 3 []
    let pid := parts.getD 4 []
    if jsTruthyStr serverIp && containsSeq (serverIp.getD "").data remoteTok then
      let lap := parseAddressPort localTok
      let rap := parseAddressPort remoteTok
      some ⟨⟨proto⟩, ⟨lap.1⟩, ⟨lap.2⟩, ⟨rap.1⟩, ⟨rap.2⟩, ⟨state⟩, ⟨pid⟩⟩
    else none
  else none

/-- The rows recorded by one watcher tick.  `execOut = none` models an `exec`
error (`if (!err && stdout)` skips the whole dump), `some ""` an empty
stdout (also falsy). -/
def tickMatches (serverIp : Option String) (execOut : Option String) : List ConnAttempt :=
  match execOut with
  | none => []
  | some out =>
    if out == "" then []
    else (netstatBody out.data).filterMap (parseConnLine serverIp)

/-! ## Endpoint normalization (`normalizeEndpoint` in `worker.js`) -/

/-- Strip a case-insensitive leading `opc.tcp://` scheme prefix
(`server.toLowerCase().startsWith('opc.tcp://')` followed by
`server.slice('opc.tcp://'.length)`). -/
def stripScheme (t : List Char) : List Char :=
  if leadsWith "opc.tcp://".data (lowerChars t) then t.drop 10 else t

/-- The regex `^(.+?):(\d+)$` of `normalizeEndpoint`: it matches exactly when
the string splits at its last colon into a nonempty head and a nonempty
all-digit tail (the lazy group still yields that split, because a digit tail
cannot contain a further colon). -/
def hostPortMatch (t : List Char) : Option (List Char × List Char) :=
  match splitLastColon t with
  | none => none
  | some (h, ds) =>
    if !h.isEmpty && !ds.isEmpty && ds.all Char.isDigit then some (h, ds) else none

/-- `normalizeEndpoint(server, port)`: trim, strip the scheme prefix, split a
trailing `host:digits`, prefer the supplied port, and rebuild
`opc.tcp://host:port`; throws `server missing` / `port missing` otherwise.
The `server` argument is `Option String` (`none` = absent) and `port` is the
numeric config port (`Option Nat`, `some 0` being JS-falsy). -/
def normalizeEndpoint (server : Option String) (port : Option Nat) : Except String String :=
  match server with
  | none => .error "server missing"
  | some s0 =>
    if s0 == "" then .error "server missing"
    else
      let t0 := trimChars s0.data
      let t1 := stripScheme t0
      let suppliedPort : Option String :=
        if jsTruthyNat port then some (toString (port.getD 0)) else none
      match hostPortMatch t1 with
      | some (h, ds) =>
        .ok ("opc.tcp://" ++ String.mk h ++ ":" ++ (suppliedPort.getD (String.mk ds)))
      | none =>
        match suppliedPort with
        | some p => .ok ("opc.tcp://" ++ String.mk t1 ++ ":" ++ p)
        | none => .error "port missing"

/-! ## Port diff (the before/after comparison in the start handler) -/

/-- The `address:port` key of the JS template `` `${l.localAddress}:${l.localPort}` ``. -/
def portKey (r : SocketRec) : String :=
  r.localAddress ++ ":" ++ r.localPort

/-- Adding one element to a JS `Set` modelled as its insertion-ordered
element list. -/
def insertKey (acc : List String) (k : String) : List String :=
  if k ∈ acc then acc else acc ++ [k]

/-- `new Set(list)` modelled as the insertion-ordered, first-occurrence
deduplicated element list. -/
def jsSet (l : List String) : List String :=
  l.foldl insertKey []

/-- The key set of a snapshot: `new Set(listeners.map(l => addr:port))`. -/
def snapshotKeys (rs : List SocketRec) : List String :=
  jsSet (rs.map portKey)

/-- `[...afterPorts].filter(p => !baselinePorts.has(p))`. -/
def newPorts (before after : List SocketRec) : List String :=
  (snapshotKeys after).filter (fun k => decide (k ∉ snapshotKeys before))

/-- `[...baselinePorts].filter(p => !afterPorts.has(p))`. -/
def removedPorts (before after : List SocketRec) : List String :=
  (snapshotKeys before).filter (fun k => decide (k ∉ snapshotKeys after))

/-- `netChange: portCount - (beforeListeners?.length || 0)` — the raw
record-count delta (a JS number, possibly negative). -/
def netChange (before after : List SocketRec) : Int :=
  (after.length : Int) - (before.length : Int)

/-! ## Connection watcher loop (`monitorConnectionAttempts`)

The JS loop runs a `setInterval` every 2000 ms.  Tick `i'` (1-based)
*issues* `exec('netstat -ano')`, whose callback appends that tick's matching
rows to `found` only when the spawned process has exited — strictly after the
synchronous interval handler returns.  The handler then increments `i` and,
once `i ≥ polls`, clears the interval and calls `resolve(found)` — with the
final tick's callback still pending.  Under the canonical timing (netstat
finishes well inside the 2000 ms gap) every earlier tick's callback has
appended before the next tick fires, so the loop is modelled by a structural
recursion whose fuel is the number of *non-final* ticks, `polls - 1`
(`polls ≤ 1` fires exactly one tick, since the stop test `i ≥ polls` runs
after the increment).  The model returns

* the number of ticks fired (= `exec` invocations issued),
* the value passed to `resolve` (the final tick's rows not yet appended),
* the fully appended accumulator after the last callback lands. -/

/-- One run of the interval loop; `f j` is the list of rows matched by the
`j`-th tick (1-based). -/
def simLoopAux (f : Nat → List ConnAttempt) :
    Nat → Nat → List ConnAttempt → Nat × List ConnAttempt × List ConnAttempt
  | 0, i, found => (i + 1, found, found ++ f (i + 1))
  | fuel + 1, i, found => simLoopAux f fuel (i + 1) (found ++ f (i + 1))

/-- `monitorConnectionAttempts(serverIp, serverPort, durationMs)`.
`polls = Math.ceil(durationMs / 2000)`; `execOut j` is the stdout of the
`j`-th `netstat` invocation (`none` = exec error).  The `serverPort`
argument is accepted and unused, exactly as in the source. -/
def monitorConnectionAttempts (serverIp : Option String) (serverPort : Option Nat)
    (durationMs : Nat) (execOut : Nat → Option String) :
    Nat × List ConnAttempt × List ConnAttempt :=
  let _ := serverPort
  let polls := (durationMs + 1999) / 2000
  simLoopAux (fun j => tickMatches serverIp (execOut j)) (polls - 1) 0 []

/-- `Math.round((i / polls) * 15)` on nonnegative reals is
`⌊15·i/polls + 1/2⌋ = ⌊(30·i + polls) / (2·polls)⌋`. -/
def round15 (i polls : Nat) : Nat :=
  (30 * i + polls) / (2 * polls)

/-- The per-tick progress percentages `75 + Math.round((i / polls) * 15)` for
`i = 1 .. polls`, in emission order. -/
def monitorProgressValues (polls : Nat) : List Nat :=
  (List.range polls).map (fun i => 75 + round15 (i + 1) polls)

/-! ## The probe pipeline (the `process.on('message')` start handler)

The handler is modelled as a pure function of the probe config and an
environment of external outcomes (network and OS effects).  Only the
parent-directed event channel relevant to the claims is modelled:
`progress`, `result-partial`, `result-final` and `error` messages, plus the
`process.exit` code and the contexts pushed onto the `errors` record list by
`logError`.  (`log` messages and the log file are append-only sinks that no
claim constrains.) -/

/-- The payload stages of the five `result-partial` events. -/
inductive Stage
  | endpoints
  | beforeCapture
  | subscription
  | afterCapture
  | connections
deriving DecidableEq, Repr

/-- Events sent to the parent process. -/
inductive PEvent
  | progress (percent : Nat)
  | resultPartial (s : Stage)
  | resultFinal
  | errorEv
deriving DecidableEq, Repr

/-- Result of `createSubscriptionAndMonitor` (the function itself catches all
errors and returns `success:false`, but its promise can still reject — e.g.
`normalizeEndpoint` throwing synchronously — which the handler's own
`catch` converts to a failed outcome). -/
structure SubResult where
  success : Bool
  info : String
deriving DecidableEq, Repr

/-- External outcomes of one probe run.  `serverIp` is the value of
`extractHostFromEndpoint(config.server)` (its `new URL` parsing is not
modelled; no claim constrains it).  `monitorExec` is the per-tick netstat
stdout for the monitor stage. -/
structure ProbeEnv where
  queryResult : Except String (List String)
  beforeResult : Except String (List SocketRec)
  subscribeResult : Except String SubResult
  afterResult : Except String (List SocketRec)
  serverIp : Option String
  monitorExec : Nat → Option String

/-- The start handler: stage sequence, per-stage failure policy, emitted
events, `errors` contexts and exit code.  Endpoint-discovery failure (and a
config error from `normalizeEndpoint`) propagates to the outer `catch`,
which sends a single `error` event and exits `1`; every later stage failure
is caught locally, substitutes an empty/failed value and continues.  The
monitor stage runs with the hardcoded 30 000 ms window (15 polls) and its
awaited value is the *resolved* component of the watcher model. -/
def runProbe (server : Option String) (port : Option Nat) (env : ProbeEnv) :
    List PEvent × Nat × List String :=
  let evs : List PEvent := [.progress 10]
  match normalizeEndpoint server port with
  | .error _ => (evs ++ [.errorEv], 1, ["Probe Execution"])
  | .ok _ =>
    match env.queryResult with
    | .error _ => (evs ++ [.errorEv], 1, ["Endpoint Query", "Probe Execution"])
    | .ok _eps =>
      let (errs1 : List String) := []
      let evs := evs ++ [.resultPartial .endpoints, .progress 25]
      let errs1 := match env.beforeResult with
        | .error _ => errs1 ++ ["Baseline Port Capture"]
        | .ok _ => errs1
      let evs := evs ++ [.resultPartial .beforeCapture, .progress 45]
      let errs1 := match env.subscribeResult with
        | .error _ => errs1 ++ ["Subscription Creation"]
        | .ok r => if r.success then errs1 else errs1 ++ ["Subscription Creation"]
      let evs := evs ++ [.resultPartial .subscription, .progress 65]
      let errs1 := match env.afterResult with
        | .error _ => errs1 ++ ["Post-Subscription Port Capture"]
        | .ok _ => errs1
      let evs := evs ++ [.resultPartial .afterCapture, .progress 75]
      let _conns := (monitorConnectionAttempts env.serverIp port 30000 env.monitorExec).2.1
      let evs := evs ++ (monitorProgressValues 15).map .progress
      let evs := evs ++ [.resultPartial .connections, .resultFinal]
      (evs, 0, errs1)

/-- The percent values of the progress events of a run, in emission order. -/
def progressPercents (evs : List PEvent) : List Nat :=
  evs.filterMap (fun e => match e with | .progress p => some p | _ => none)

/-- Number of occurrences of an event in a run. -/
def evCount (e : PEvent) (evs : List PEvent) : Nat :=
  (evs.filter (fun x => x == e)).length

/-! ## Spec-side definitions and concrete inputs used by the claim theorems -/

/-- The listening marker *as the spec/claim states it*: case-insensitive,
accepting both the abbreviated and the full spelling in any letter case.
Used only to exhibit the divergence from `isListeningState`. -/
def claimListeningMarker (state : List Char) : Bool :=
  lowerChars state == "listen".data || lowerChars state == "listening".data

/-- Netstat text for the watcher-matching claim: one `ESTABLISHED` row whose
remote token is `10.0.0.50:4840` and one whose remote token is
`10.0.0.5:4840`, after the four header lines. -/
def c1Netstat : String :=
  "h1\nh2\nh3\nh4\n  TCP  10.0.0.9:52431  10.0.0.50:4840  ESTABLISHED  1234\n  TCP  10.0.0.9:52432  10.0.0.5:4840  SYN_SENT  1234\n"

/-- Per-tick netstat stdout for the watcher-timing claim: tick `j` reports
exactly one row matching target `10.0.0.5`, with the tick number in the pid
column so the ticks' rows are distinguishable. -/
def c2Exec (j : Nat) : Option String :=
  some ("h1\nh2\nh3\nh4\n  TCP  10.0.0.9:51000  10.0.0.5:4840  ESTABLISHED  " ++ toString j ++ "\n")

/-- A listening-socket row on `0.0.0.0:135` (pid 884). -/
def rec135 : SocketRec := ⟨"TCP", "0.0.0.0", "135", "884"⟩

/-- A listening-socket row on `0.0.0.0:52000` (pid 884). -/
def rec52000 : SocketRec := ⟨"TCP", "0.0.0.0", "52000", "884"⟩

/-- Netstat text whose only body row has the lowercase state token `listen`. -/
def c7Netstat : String :=
  "h1\nh2\nh3\nh4\n  TCP  0.0.0.0:80  0.0.0.0:0  listen  999\n"

/-- A probe environment whose endpoint discovery fails. -/
def c4FailEnv : ProbeEnv :=
  { queryResult := .error "connection refused"
    beforeResult := .ok []
    subscribeResult := .ok ⟨true, "ns=0;i=2258"⟩
    afterResult := .ok []
    serverIp := some "10.0.0.5"
    monitorExec := fun _ => none }

/-- A probe environment in which every stage succeeds. -/
def c4OkEnv : ProbeEnv :=
  { queryResult := .ok ["opc.tcp://10.0.0.5:4840"]
    beforeResult := .ok [rec135]
    subscribeResult := .ok ⟨true, "ns=0;i=2258"⟩
    afterResult := .ok [rec135, rec52000]
    serverIp := some "10.0.0.5"
    monitorExec := fun _ => none }

/-! ## Helper lemmas -/

theorem mem_insertKey {acc : List String} {k x : String} :
    x ∈ insertKey acc k ↔ x ∈ acc ∨ x = k := by
  unfold insertKey
  by_cases h : k ∈ acc
  · simp only [if_pos h]
    constructor
    · exact Or.inl
    · rintro (hx | rfl) <;> assumption
  · simp [if_neg h]

theorem nodup_insertKey {acc : List String} {k : String} (h : acc.Nodup) :
    (insertKey acc k).Nodup := by
  unfold insertKey
  by_cases hk : k ∈ acc
  · simpa [if_pos hk]
  · rw [if_neg hk]
    exact List.Nodup.append h (List.nodup_singleton k) (List.disjoint_singleton.mpr hk)

theorem foldl_insertKey_mem (l : List String) (acc : List String) (x : String) :
    x ∈ l.foldl insertKey acc ↔ x ∈ acc ∨ x ∈ l := by
  induction l generalizing acc with
  | nil => simp
  | cons a t ih =>
    simp only [List.foldl_cons, ih, mem_insertKey, List.mem_cons]
    tauto

theorem foldl_insertKey_nodup (l : List String) (acc : List String) (h : acc.Nodup) :
    (l.foldl insertKey acc).Nodup := by
  induction l generalizing acc with
  | nil => simpa
  | cons a t ih => exact ih _ (nodup_insertKey h)

theorem foldl_insertKey_eq_append (l : List String) (acc : List String)
    (h : (acc ++ l).Nodup) : l.foldl insertKey acc = acc ++ l := by
  induction l generalizing acc with
  | nil => simp
  | cons a t ih =>
    have hna : a ∉ acc := by
      intro hmem
      exact (List.disjoint_of_nodup_append h) hmem (List.mem_cons_self a t)
    have : insertKey acc a = acc ++ [a] := by simp [insertKey, if_neg hna]
    rw [List.foldl_cons, this, ih (acc ++ [a]) (by simpa using h)]
    simp

theorem mem_jsSet {l : List String} {x : String} : x ∈ jsSet l ↔ x ∈ l := by
  simpa [jsSet] using foldl_insertKey_mem l [] x

theorem jsSet_nodup (l : List String) : (jsSet l).Nodup :=
  foldl_insertKey_nodup l [] List.nodup_nil

theorem jsSet_eq_of_nodup {l : List String} (h : l.Nodup) : jsSet l = l := by
  simpa [jsSet] using foldl_insertKey_eq_append l [] (by simpa)

theorem mem_snapshotKeys {rs : List SocketRec} {k : String} :
    k ∈ snapshotKeys rs ↔ k ∈ rs.map portKey := by
  simp [snapshotKeys, mem_jsSet]

theorem splitLastColon_eq_none {t : List Char} : splitLastColon t = none ↔ ':' ∉ t := by
  induction t with
  | nil => simp [splitLastColon]
  | cons c cs ih =>
    simp only [splitLastColon, List.mem_cons]
    cases h : splitLastColon cs with
    | some p => simp only [h] at ih; simp [ih.symm, h]
    | none =>
      simp only [h] at ih
      by_cases hc : c = ':'
      · simp [hc]
      · have hcs : ':' ∉ cs := ih.mp trivial
        rw [if_neg (by simp [hc] : ¬((c == ':') = true))]
        constructor
        · intro _
          push_neg
          exact ⟨fun hch => hc hch.symm, hcs⟩
        · intro _
          rfl

theorem parseListenLine_eq_some {line : List Char} {r : SocketRec} :
    parseListenLine line = some r ↔
      (wsTokens line).length ≥ 5 ∧
        isListeningState ((wsTokens line).getD 3 []) = true ∧ r = listenRecOfLine line := by
  unfold parseListenLine
  by_cases h5 : (wsTokens line).length ≥ 5
  · by_cases hst : isListeningState ((wsTokens line).getD 3 []) = true
    · rw [if_pos h5, if_pos hst]
      constructor
      · intro h
        exact ⟨h5, hst, (Option.some_inj.mp h).symm⟩
      · intro h
        rw [h.2.2]
    · rw [if_pos h5, if_neg hst]
      constructor
      · intro h
        cases h
      · intro h
        exact absurd h.2.1 hst
  · rw [if_neg h5]
    constructor
    · intro h
      cases h
    · intro h
      exact absurd h.1 h5

theorem parseConnLine_of_falsy {t : Option String} (h : jsTruthyStr t = false)
    (line : List Char) : parseConnLine t line = none := by
  unfold parseConnLine
  simp [h]

theorem tickMatches_of_falsy {t : Option String} (h : jsTruthyStr t = false)
    (o : Option String) : tickMatches t o = [] := by
  cases o with
  | none => rfl
  | some out =>
    simp only [tickMatches]
    by_cases he : (out == "") = true
    · rw [if_pos he]
    · rw [if_neg he]
      exact List.filterMap_eq_nil_iff.mpr (fun line _ => parseConnLine_of_falsy h line)

theorem simLoopAux_ticks (f : Nat → List ConnAttempt) (fuel i : Nat)
    (found : List ConnAttempt) : (simLoopAux f fuel i found).1 = i + fuel + 1 := by
  induction fuel generalizing i found with
  | zero => rfl
  | succ n ih => simp [simLoopAux, ih]; omega

theorem simLoopAux_of_empty (f : Nat → List ConnAttempt) (hf : ∀ j, f j = [])
    (fuel i : Nat) (found : List ConnAttempt) :
    (simLoopAux f fuel i found).2.1 = found ∧ (simLoopAux f fuel i found).2.2 = found := by
  induction fuel generalizing i found with
  | zero => simp [simLoopAux, hf]
  | succ n ih => simpa [simLoopAux, hf] using ih (i + 1) found

/-! ## Claim theorems -/

/-- **C1** (code bug evidence): the claim says a netstat row is recorded by a
watcher tick *iff* its remote address is exactly the target; in particular,
with target `10.0.0.5` a row with remote token `10.0.0.50:4840` is never
recorded.  The code instead tests `remote.includes(serverIp)` — substring
containment — so on `c1Netstat` the tick records *both* rows, including the
one whose remote address is `10.0.0.50` ≠ `10.0.0.5`. -/
theorem C1_substring_containment_recorded :
    (tickMatches (some "10.0.0.5") (some c1Netstat)).map (fun c => c.remoteAddress)
      = ["10.0.0.50", "10.0.0.5"] := by decide

/-- **C2** (code bug evidence): with `durationMs = 6000` the watcher does
issue exactly `⌈6000/2000⌉ = 3` netstat polls, but `resolve(found)` runs
synchronously inside the third interval tick, *before* the third `exec`
callback appends its matches: the resolved sequence carries only the rows of
ticks 1 and 2 (pids `1`, `2`), while the fully appended accumulator also has
tick 3's row — refuting "resolves only after all 3 poll invocations have
completed and their matches have been appended". -/
theorem C2_resolve_precedes_last_append :
    (monitorConnectionAttempts (some "10.0.0.5") (some 4840) 6000 c2Exec).1 = 3
    ∧ ((monitorConnectionAttempts (some "10.0.0.5") (some 4840) 6000 c2Exec).2.1).map
        (fun c => c.pid) = ["1", "2"]
    ∧ ((monitorConnectionAttempts (some "10.0.0.5") (some 4840) 6000 c2Exec).2.2).map
        (fun c => c.pid) = ["1", "2", "3"] := by decide

/-- **C3** (counterexample): the claim says normalization fails exactly when
host or port is still unset; but for server `"opc.tcp://"` (whose host is
empty after stripping the scheme) with port `4840` supplied, the code does
not fail — it returns the degenerate endpoint `"opc.tcp://:4840"` with an
empty host. -/
theorem C3_empty_host_not_rejected :
    normalizeEndpoint (some "opc.tcp://") (some 4840) = .ok "opc.tcp://:4840" := by
  rfl

/-- **C5** (counterexample): with duplicate `address:port` keys inside one
snapshot the raw record-count delta diverges from the keyed-set delta:
`before = [rec135, rec135]`, `after = [rec135]` gives `netChange = -1` but
`len(newPorts) - len(removedPorts) = 0`. -/
theorem C5_duplicate_keys_break_delta :
    netChange [rec135, rec135] [rec135] = -1
    ∧ ((newPorts [rec135, rec135] [rec135]).length : Int)
        - ((removedPorts [rec135, rec135] [rec135]).length : Int) = 0 := by
  constructor
  · rfl
  · rfl

/-- **C7** (counterexample): the claim says the abbreviated spelling is
accepted in any letter case, but a row whose state token is lowercase
`listen` — which the claim's case-insensitive marker accepts — is *not*
returned: the code tests `/LISTENING/i` (full spelling only) or the exact
uppercase `'LISTEN'`. -/
theorem C7_lowercase_abbreviated_skipped :
    claimListeningMarker "listen".data = true ∧ getListeningPorts c7Netstat = [] := by
  decide

/-- **C10** (counterexample): with `durationMs = 0` the claim demands
`⌈0/2000⌉ = 0` polls, but the loop's stop test `i ≥ polls` runs only after
the first tick has already issued its netstat poll, so exactly one poll is
performed. -/
theorem C10_zero_duration_polls_once :
    (monitorConnectionAttempts none none 0 (fun _ => none)).1 = 1
    ∧ (monitorConnectionAttempts none none 0 (fun _ => none)).1 ≠ (0 + 1999) / 2000 := by
  decide

/-- **C6** (confirmed): the diff over `address:port`-keyed sets computes
`newPorts` as exactly the keys present in `after` and absent in `before`,
`removedPorts` symmetrically; and on the spec's concrete example the result
is `newPorts = ["0.0.0.0:52000"]`, `removedPorts = []`, `netChange = 1`. -/
theorem C6_port_diff_exact :
    (∀ (before after : List SocketRec) (k : String),
        (k ∈ newPorts before after ↔ k ∈ after.map portKey ∧ k ∉ before.map portKey)
        ∧ (k ∈ removedPorts before after ↔ k ∈ before.map portKey ∧ k ∉ after.map portKey))
    ∧ newPorts [rec135] [rec135, rec52000] = ["0.0.0.0:52000"]
    ∧ removedPorts [rec135] [rec135, rec52000] = []
    ∧ netChange [rec135] [rec135, rec52000] = 1 := by
  refine ⟨fun before after k => ⟨?_, ?_⟩, by decide, by decide, by decide⟩
  · simp [newPorts, List.mem_filter, mem_snapshotKeys]
  · simp [removedPorts, List.mem_filter, mem_snapshotKeys]

/-- **C8** (confirmed): parsing is total — a body line with fewer than five
whitespace-separated columns contributes nothing (removing it from the body
leaves the parsed records unchanged), and an `address:port` token without a
colon splits into the whole token and the *empty-string* port (fields are
total strings, never absent). -/
theorem C8_short_rows_ignored_and_no_null_fields :
    (∀ (pre post : List (List Char)) (bad : List Char),
        (wsTokens bad).length < 5 →
          listenersOfBody (pre ++ bad :: post) = listenersOfBody (pre ++ post))
    ∧ (∀ t : List Char, ':' ∉ t → parseAddressPort t = (t, [])) := by
  constructor
  · intro pre post bad hbad
    have hnone : parseListenLine bad = none := by
      unfold parseListenLine
      rw [if_neg (by omega)]
    simp [listenersOfBody, List.filterMap_append, List.filterMap_cons, hnone]
  · intro t ht
    unfold parseAddressPort
    rw [splitLastColon_eq_none.mpr ht]

/-- Witness for `C8_short_rows_ignored_and_no_null_fields` at a concrete
short row and a concrete colon-free token. -/
theorem C8_short_rows_witness :
    ((wsTokens "TCP incomplete".data).length < 5
      ∧ listenersOfBody (["w".data] ++ "TCP incomplete".data :: ["v".data])
          = listenersOfBody (["w".data] ++ ["v".data]))
    ∧ (':' ∉ "noport".data ∧ parseAddressPort "noport".data = ("noport".data, [])) :=
  ⟨⟨by decide, C8_short_rows_ignored_and_no_null_fields.1 ["w".data] ["v".data]
      "TCP incomplete".data (by decide)⟩,
    ⟨by decide, C8_short_rows_ignored_and_no_null_fields.2 "noport".data (by decide)⟩⟩

/-- **C4** (confirmed): if endpoint discovery fails, the run emits only the
initial progress event followed by a single `error` event — no later stage's
partial result, no final aggregate — exits nonzero and records a fatal error;
and every run emits exactly one final aggregate xor exactly one error
event. -/
theorem C4_discovery_fatal_and_unique_outcome :
    (∀ (server : Option String) (port : Option Nat) (env : ProbeEnv) (e : String),
        env.queryResult = .error e →
          (runProbe server port env).1 = [.progress 10, .errorEv]
          ∧ (runProbe server port env).2.1 = 1
          ∧ (runProbe server port env).2.2 ≠ [])
    ∧ (∀ (server : Option String) (port : Option Nat) (env : ProbeEnv),
        (evCount .resultFinal (runProbe server port env).1 = 1
          ∧ evCount .errorEv (runProbe server port env).1 = 0)
        ∨ (evCount .resultFinal (runProbe server port env).1 = 0
          ∧ evCount .errorEv (runProbe server port env).1 = 1)) := by
  constructor
  · intro server port env e he
    cases hn : normalizeEndpoint server port with
    | error _ => simp [runProbe, hn]
    | ok _ => simp [runProbe, hn, he]
  · intro server port env
    cases hn : normalizeEndpoint server port with
    | error _ =>
      simp only [runProbe, hn]
      right
      exact ⟨rfl, rfl⟩
    | ok _ =>
      cases hq : env.queryResult with
      | error _ =>
        simp only [runProbe, hn, hq]
        right
        exact ⟨rfl, rfl⟩
      | ok _ =>
        simp only [runProbe, hn, hq]
        left
        exact ⟨by decide, by decide⟩

/-- Witness for `C4_discovery_fatal_and_unique_outcome` on a concrete
environment whose discovery stage fails. -/
theorem C4_discovery_fatal_witness :
    c4FailEnv.queryResult = .error "connection refused"
    ∧ ((runProbe (some "10.0.0.5") (some 4840) c4FailEnv).1 = [.progress 10, .errorEv]
        ∧ (runProbe (some "10.0.0.5") (some 4840) c4FailEnv).2.1 = 1
        ∧ (runProbe (some "10.0.0.5") (some 4840) c4FailEnv).2.2 ≠ []) :=
  ⟨rfl, C4_discovery_fatal_and_unique_outcome.1 (some "10.0.0.5") (some 4840) c4FailEnv
    "connection refused" rfl⟩

/-- **C9** (confirmed): within one probe run the emitted progress percents
are monotonically non-decreasing (checkpoints 10/25/45/65/75 in order, then
the monitor increments), and each monitor increment `75 + round((i/polls)·15)`
is at least 75 and non-decreasing in the tick index. -/
theorem C9_progress_monotone :
    (∀ (server : Option String) (port : Option Nat) (env : ProbeEnv),
        (progressPercents (runProbe server port env).1).Sorted (· ≤ ·))
    ∧ (∀ polls i : Nat,
        75 ≤ 75 + round15 (i + 1) polls
        ∧ 75 + round15 (i + 1) polls ≤ 75 + round15 (i + 2) polls) := by
  constructor
  · intro server port env
    cases hn : normalizeEndpoint server port with
    | error _ =>
      simp only [runProbe, hn]
      decide
    | ok _ =>
      cases hq : env.queryResult with
      | error _ =>
        simp only [runProbe, hn, hq]
        decide
      | ok _ =>
        simp only [runProbe, hn, hq]
        decide
  · intro polls i
    refine ⟨Nat.le_add_right 75 _, Nat.add_le_add_left ?_ 75⟩
    exact Nat.div_le_div_right (by omega)

/-- **C7** (amended): the snapshot returns exactly the body rows with at
least five columns whose state token either *contains* the full spelling
`LISTENING` case-insensitively or *equals* the abbreviated spelling `LISTEN`
in exact upper case — the abbreviated spelling is not matched
case-insensitively. -/
theorem C7_amended_listening_rows_exact :
    ∀ (stdout : String) (r : SocketRec),
      r ∈ getListeningPorts stdout ↔
        ∃ line, line ∈ netstatBody stdout.data
          ∧ (wsTokens line).length ≥ 5
          ∧ isListeningState ((wsTokens line).getD 3 []) = true
          ∧ r = listenRecOfLine line := by
  intro stdout r
  unfold getListeningPorts listenersOfBody
  rw [List.mem_filterMap]
  constructor
  · rintro ⟨line, hmem, hparse⟩
    have h := parseListenLine_eq_some.mp hparse
    exact ⟨line, hmem, h.1, h.2.1, h.2.2⟩
  · rintro ⟨line, hmem, h5, hst, hr⟩
    exact ⟨line, hmem, parseListenLine_eq_some.mpr ⟨h5, hst, hr⟩⟩

/-- **C5** (amended): when each snapshot is duplicate-free on its
`address:port` keys (the data model's set invariant), the raw record-count
delta `netChange = |after| − |before|` coincides with
`len(newPorts) − len(removedPorts)`. -/
theorem C5_amended_delta_agrees_on_keyed_sets :
    ∀ (before after : List SocketRec),
      (before.map portKey).Nodup → (after.map portKey).Nodup →
        netChange before after = (after.length : Int) - (before.length : Int)
        ∧ netChange before after
            = ((newPorts before after).length : Int)
              - ((removedPorts before after).length : Int) := by
  intro before after hB hA
  refine ⟨rfl, ?_⟩
  set B := before.map portKey with hBdef
  set A := after.map portKey with hAdef
  have hsB : snapshotKeys before = B := by
    rw [snapshotKeys, jsSet_eq_of_nodup hB]
  have hsA : snapshotKeys after = A := by
    rw [snapshotKeys, jsSet_eq_of_nodup hA]
  have hnew : newPorts before after = A.filter (fun k => !(decide (k ∈ B))) := by
    rw [newPorts, hsA]
    exact List.filter_congr (fun k _ => by rw [hsB]; simp)
  have hrem : removedPorts before after = B.filter (fun k => !(decide (k ∈ A))) := by
    rw [removedPorts, hsB]
    exact List.filter_congr (fun k _ => by rw [hsA]; simp)
  have hsplitA := List.length_eq_length_filter_add (l := A) (fun k => decide (k ∈ B))
  have hsplitB := List.length_eq_length_filter_add (l := B) (fun k => decide (k ∈ A))
  have hperm : (A.filter (fun k => decide (k ∈ B))).length
      = (B.filter (fun k => decide (k ∈ A))).length := by
    apply List.Perm.length_eq
    rw [List.perm_ext_iff_of_nodup (hA.filter _) (hB.filter _)]
    intro x
    simp only [List.mem_filter, decide_eq_true_eq]
    tauto
  have hlenA : A.length = after.length := by rw [hAdef, List.length_map]
  have hlenB : B.length = before.length := by rw [hBdef, List.length_map]
  rw [netChange, hnew, hrem]
  omega

/-- Witness for `C5_amended_delta_agrees_on_keyed_sets` on duplicate-free
snapshots. -/
theorem C5_amended_witness :
    ((([rec135] : List SocketRec).map portKey).Nodup
      ∧ (([rec135, rec52000] : List SocketRec).map portKey).Nodup)
    ∧ (netChange [rec135] [rec135, rec52000]
          = (([rec135, rec52000] : List SocketRec).length : Int)
            - (([rec135] : List SocketRec).length : Int)
        ∧ netChange [rec135] [rec135, rec52000]
            = ((newPorts [rec135] [rec135, rec52000]).length : Int)
              - ((removedPorts [rec135] [rec135, rec52000]).length : Int)) :=
  ⟨⟨by decide, by decide⟩,
    C5_amended_delta_agrees_on_keyed_sets [rec135] [rec135, rec52000] (by decide) (by decide)⟩

/-- **C3** (amended): normalization trims, strips a case-insensitive
`opc.tcp://` prefix, splits a trailing `host:digits` remainder (the extracted
port used only when no truthy port was supplied), and rebuilds
`opc.tcp://host:port`; it fails exactly when the server argument is
missing/empty or the port is still unset — a host that becomes *empty* after
trimming/stripping is not itself rejected.  The spec's three examples hold. -/
theorem C3_amended_normalization :
    (normalizeEndpoint (some "opc.tcp://10.0.0.5:4840") none = .ok "opc.tcp://10.0.0.5:4840"
      ∧ normalizeEndpoint (some "10.0.0.5") (some 4840) = .ok "opc.tcp://10.0.0.5:4840"
      ∧ normalizeEndpoint (some "10.0.0.5") none = .error "port missing")
    ∧ (∀ p, normalizeEndpoint none p = .error "server missing"
        ∧ normalizeEndpoint (some "") p = .error "server missing")
    ∧ (∀ (s : String) (p : Option Nat), s ≠ "" →
        ((normalizeEndpoint (some s) p).isOk = true ↔
          (jsTruthyNat p = true
            ∨ (hostPortMatch (stripScheme (trimChars s.data))).isSome = true)))
    ∧ (∀ (s : String) (p : Option Nat) (h ds : List Char), s ≠ "" →
        hostPortMatch (stripScheme (trimChars s.data)) = some (h, ds) →
        normalizeEndpoint (some s) p
          = .ok ("opc.tcp://" ++ String.mk h ++ ":"
              ++ (if jsTruthyNat p = true then toString (p.getD 0) else String.mk ds)))
    ∧ (∀ (s : String) (p : Option Nat), s ≠ "" →
        hostPortMatch (stripScheme (trimChars s.data)) = none →
        jsTruthyNat p = true →
        normalizeEndpoint (some s) p
          = .ok ("opc.tcp://" ++ String.mk (stripScheme (trimChars s.data)) ++ ":"
              ++ toString (p.getD 0))) := by
  refine ⟨⟨rfl, rfl, rfl⟩, fun p => ⟨rfl, rfl⟩, ?_, ?_, ?_⟩
  · intro s p hs
    have hs' : (s == "") ≠ true := by simpa using hs
    simp only [normalizeEndpoint, if_neg hs']
    cases hm : hostPortMatch (stripScheme (trimChars s.data)) with
    | some pr =>
      cases hp : jsTruthyNat p <;> simp [hp, Except.isOk, Except.toBool]
    | none =>
      cases hp : jsTruthyNat p <;> simp [hp, Except.isOk, Except.toBool]
  · intro s p h ds hs hm
    have hs' : (s == "") ≠ true := by simpa using hs
    simp only [normalizeEndpoint, if_neg hs', hm]
    cases hp : jsTruthyNat p <;> simp [hp]
  · intro s p hs hm hp
    have hs' : (s == "") ≠ true := by simpa using hs
    simp only [normalizeEndpoint, if_neg hs', hm, hp]
    simp

/-- Witness for `C3_amended_normalization`: on `server = "a:1"` with supplied
port `7`, the trailing `host:digits` split succeeds but the supplied port
takes precedence: the result is `opc.tcp://a:7`. -/
theorem C3_amended_witness :
    ((("a:1" : String) ≠ "")
      ∧ hostPortMatch (stripScheme (trimChars "a:1".data)) = some ("a".data, "1".data))
    ∧ normalizeEndpoint (some "a:1") (some 7)
        = .ok ("opc.tcp://" ++ String.mk "a".data ++ ":"
            ++ (if jsTruthyNat (some 7) = true then toString ((some 7).getD 0)
                else String.mk "1".data)) :=
  ⟨⟨by decide, rfl⟩,
    C3_amended_normalization.2.2.2.1 "a:1" (some 7) "a".data "1".data (by decide) rfl⟩

/-- **C10** (amended): for every *positive* duration, a watcher run whose
target is null or empty performs exactly `⌈durationMs/2000⌉` polls, records
no attempt (the falsy guard short-circuits before the containment test), and
resolves normally with the empty sequence. -/
theorem C10_amended_falsy_target :
    ∀ (d : Nat) (sp : Option Nat) (target : Option String) (ex : Nat → Option String),
      0 < d → jsTruthyStr target = false →
        (monitorConnectionAttempts target sp d ex).1 = (d + 1999) / 2000
        ∧ (monitorConnectionAttempts target sp d ex).2.1 = []
        ∧ (monitorConnectionAttempts target sp d ex).2.2 = [] := by
  intro d sp target ex hd ht
  have hpolls : 1 ≤ (d + 1999) / 2000 := by
    rw [Nat.le_div_iff_mul_le (by norm_num)]
    omega
  have hf : ∀ j, tickMatches target (ex j) = [] :=
    fun j => tickMatches_of_falsy ht (ex j)
  unfold monitorConnectionAttempts
  refine ⟨?_, ?_, ?_⟩
  · rw [simLoopAux_ticks]
    omega
  · exact (simLoopAux_of_empty _ hf _ _ _).1
  · exact (simLoopAux_of_empty _ hf _ _ _).2

/-- Witness for `C10_amended_falsy_target` at duration 2000 ms with a null
target: one poll, empty resolution. -/
theorem C10_amended_witness :
    (0 < 2000 ∧ jsTruthyStr none = false)
    ∧ ((monitorConnectionAttempts none (some 4840) 2000 (fun _ => some "")).1
          = (2000 + 1999) / 2000
        ∧ (monitorConnectionAttempts none (some 4840) 2000 (fun _ => some "")).2.1 = []
        ∧ (monitorConnectionAttempts none (some 4840) 2000 (fun _ => some "")).2.2 = []) :=
  ⟨⟨by decide, rfl⟩,
    C10_amended_falsy_target 2000 (some 4840) none (fun _ => some "") (by decide) rfl⟩

end OpcuaProbe
